import Mathlib

/-!
Shallow embedding of the LSMP core: the packet-framing TCP connection
(`src/net/tcp_connection.cpp`) and the guarded secure-memory arena
(`src/utils/secure_memory.cpp` / `.hpp`).  Bytes are modelled as `Fin 256`,
machine `size_t`/`uint64_t` arithmetic as `Nat` with explicit `% 2^64`,
process memory as functions `Nat → Byte`, and the raw TCP stream as a list
of chunks, one chunk per `read_some` completion.
-/

namespace lsmp

abbrev Byte := Fin 256

/-- Truncate a natural number to one byte, as a `uint8_t` store does. -/
def byteOf (n : Nat) : Byte := ⟨n % 256, Nat.mod_lt _ (by decide)⟩

/-- The four magic bytes `'L' 'S' 'M' 'P'` from `tcp_connection.cpp`. -/
def byteL : Byte := 76
def byteS : Byte := 83
def byteM : Byte := 77
def byteP : Byte := 80

def markerBytes : List Byte := [byteL, byteS, byteM, byteP]

/-- The 8 bytes the `union { uint8_t size_bytes[8]; uint64_t size; }` trick
stores for a `uint64_t` value on a little-endian host: little-endian base-256
digits of `n % 2^64`. -/
def le64 (n : Nat) : List Byte :=
  [byteOf n, byteOf (n / 256), byteOf (n / 256 ^ 2), byteOf (n / 256 ^ 3),
   byteOf (n / 256 ^ 4), byteOf (n / 256 ^ 5), byteOf (n / 256 ^ 6),
   byteOf (n / 256 ^ 7)]

/-- Reading the same union back as a `uint64_t`: little-endian value of a
byte list. -/
def le64ToNat (bs : List Byte) : Nat :=
  bs.foldr (fun b acc => b.val + 256 * acc) 0

/-- The full wire frame: magic, 8-byte length, payload — exactly the bytes
`send_packet` writes (in three writes) and `async_send_packet` buffers. -/
def encode_packet (p : List Byte) : List Byte :=
  markerBytes ++ le64 p.length ++ p

/-- The three buffers `send_packet` passes to `write_some`, in order. -/
def send_packet_writes (p : List Byte) : List (List Byte) :=
  [markerBytes, le64 p.length, p]

/-- Errors surfaced by the blocking read path: `corrupted_packet_error`
(framing), `asio::system_error` (transport), `std::domain_error`
(reentrancy guard). -/
inductive PacketError where
  | framing
  | transport
  | reentrancy
deriving DecidableEq, Repr

/-- The marker validation `marker[0] != 'L' || ... || marker[3] != 'P'`
performed on a 4-byte header buffer. -/
def marker_ok : List Byte → Bool
  | a :: b :: c :: d :: _ =>
      (a == byteL) && (b == byteS) && (c == byteM) && (d == byteP)
  | _ => false

/-- One blocking `socket.read_some(buffer(dst, n))` call.  The stream is a
list of chunks; a call consumes at most one chunk, delivers
`min n chunk.length` bytes into the front of the destination buffer (whose
prior, possibly uninitialized, contents `prior` survive past the delivered
bytes — the C++ never checks the transferred count), and leaves any chunk
remainder on the stream.  An exhausted or erroring stream raises
`asio::system_error`. -/
def read_some (n : Nat) (prior : List Byte) (chunks : List (List Byte)) :
    Except PacketError (List Byte × List (List Byte)) :=
  match chunks with
  | [] => .error .transport
  | c :: rest =>
    match c with
    | [] => .error .transport
    | _ =>
      .ok (c.take n ++ prior.drop (min n c.length),
           if n < c.length then c.drop n :: rest else rest)

/-- The payload loop of `read_packet`: `while (result.size() < excepted_size)`
read one byte at a time and push it. -/
def read_payload : Nat → List (List Byte) →
    Except PacketError (List Byte × List (List Byte))
  | 0, chunks => .ok ([], chunks)
  | n + 1, chunks =>
    match read_some 1 [0] chunks with
    | .error e => .error e
    | .ok (bs, chunks1) =>
      match read_payload n chunks1 with
      | .error e => .error e
      | .ok (rest, chunks2) => .ok (bs ++ rest, chunks2)

/-- Model of `lsmp::tcp_connection::read_packet`.  `asyncBuffer` is the
connection's `async_buffer` (the emptiness guard is checked before any
socket access); `markerJunk` and `sizeJunk` are the prior contents of the
uninitialized stack arrays `marker[4]` and `size_bytes[8]`; `chunks` is the
incoming stream. -/
def read_packet (asyncBuffer : List Byte) (markerJunk sizeJunk : List Byte)
    (chunks : List (List Byte)) : Except PacketError (List Byte) :=
  if asyncBuffer.isEmpty then
    match read_some 4 markerJunk chunks with
    | .error e => .error e
    | .ok (marker, chunks1) =>
      if marker_ok marker then
        match read_some 8 sizeJunk chunks1 with
        | .error e => .error e
        | .ok (sizeBytes, chunks2) =>
          match read_payload (le64ToNat (sizeBytes.take 8)) chunks2 with
          | .error e => .error e
          | .ok (payload, _) => .ok payload
      else .error .framing
  else .error .reentrancy

/-- `asio::error_code` handed to a completion handler: zero (success) or a
failure code. -/
inductive ErrCode where
  | success
  | failure
deriving DecidableEq, Repr

/-- The `async_error` variant: `asio::system_error` (carrying its code),
`corrupted_packet_error`, or `std::domain_error`. -/
inductive AsyncError where
  | system (ec : ErrCode)
  | corrupted
  | domain
deriving DecidableEq, Repr

/-- One invocation of an `async_read_callback`: the payload argument and the
`async_error` argument. -/
structure CbInv where
  payload : List Byte
  error : Option AsyncError
deriving DecidableEq, Repr

/-- A socket operation issued by the async read path:
`async_read_some` of `n` bytes into `async_buffer`. -/
inductive SockOp where
  | readSome (n : Nat)
deriving DecidableEq, Repr

/-- Connection state used by the async read machinery: `async_buffer` and
`async_read_excepted_size` (a `uint64_t`, initialized to 0). -/
structure ConnState where
  asyncBuffer : List Byte
  expectedSize : Nat
deriving DecidableEq, Repr

/-- A freshly constructed connection: empty buffer, zero expected size. -/
def idleConn : ConnState := ⟨[], 0⟩

/-- `std::vector::resize`: keep the first `n` elements, value-initialize
(zero) any new ones. -/
def vecResize (l : List Byte) (n : Nat) : List Byte :=
  l.take n ++ List.replicate (n - l.length) 0

/-- The `async_buffer.size() == 8 && async_read_excepted_size == 0` block of
`read_async_inner`: record the length field read from the buffer and issue
one more `async_read_some` over the (still 8-byte) buffer. -/
def read_async_second (s : ConnState) : ConnState × List SockOp × List CbInv :=
  if s.asyncBuffer.length = 8 ∧ s.expectedSize = 0 then
    ({ s with expectedSize := le64ToNat s.asyncBuffer },
     [SockOp.readSome s.asyncBuffer.length], [])
  else (s, [], [])

/-- One synchronous execution of `lsmp::tcp_connection::read_async_inner`:
the state examined, the socket operations issued, and the callback
invocations performed before it returns.  The valid-marker branch has no
early return, so after resizing the buffer to 8 it falls through into the
size branch within the same execution. -/
def read_async_inner (s : ConnState) : ConnState × List SockOp × List CbInv :=
  if s.asyncBuffer.length = 4 ∧ s.expectedSize = 0 then
    if marker_ok s.asyncBuffer then
      let s1 := { s with asyncBuffer := vecResize s.asyncBuffer 8 }
      let r := read_async_second s1
      (r.1, SockOp.readSome 8 :: r.2.1, r.2.2)
    else (s, [], [⟨[], some AsyncError.corrupted⟩])
  else read_async_second s

/-- Model of `lsmp::tcp_connection::async_read_packet`: reject with a
synchronous `std::domain_error` callback when `async_buffer` is non-empty,
otherwise run `read_async_inner`. -/
def async_read_packet (s : ConnState) : ConnState × List SockOp × List CbInv :=
  if s.asyncBuffer.isEmpty then read_async_inner s
  else (s, [], [⟨[], some AsyncError.domain⟩])

/-- The internally owned send buffer `async_send_packet` fills (marker bytes
pushed, the length union copied, the payload copied) before returning. -/
def async_send_buffer (p : List Byte) : List Byte :=
  byteL :: byteS :: byteM :: byteP :: (le64 p.length ++ p)

/-- A socket write operation: one `async_write_some` of the given bytes. -/
inductive WriteOp where
  | writeSome (bytes : List Byte)
deriving DecidableEq, Repr

/-- The socket operations `async_send_packet` issues before returning:
exactly one non-blocking write of the whole internally owned buffer. -/
def async_send_writes (p : List Byte) : List WriteOp :=
  [WriteOp.writeSome (async_send_buffer p)]

/-- The callback invocations the write-completion handler performs, given
the completion error code: it always calls
`callback(asio::system_error(ec))`, an engaged `async_error`, even when
`ec` is the zero (success) code. -/
def async_send_on_complete (ec : ErrCode) : List (Option AsyncError) :=
  [some (AsyncError.system ec)]

/-- A delivery schedule in which each `read_some` of `read_packet` receives
exactly the bytes it asked for: the marker as one chunk, the length field as
one chunk, each payload byte singly. -/
def exactDelivery (p : List Byte) : List (List Byte) :=
  [markerBytes, le64 p.length] ++ p.map (fun b => [b])

/-- The zero value fresh secure memory is filled with
(`lsmp::memory_garbage_byte`). -/
def memory_garbage_byte : Byte := 0

/-- The canary sentinel (`lsmp::memory_canary_byte`, `0xFF`). -/
def memory_canary_byte : Byte := 255

/-- Process memory, viewed as a byte value for every offset into one
allocation. -/
abbrev Mem := Nat → Byte

/-- `rewrite_memory` over the address range `[off, off + len)`. -/
def writeRange (m : Mem) (off len : Nat) (b : Byte) : Mem :=
  fun i => if off ≤ i ∧ i < off + len then b else m i

/-- `lsmp::_detail::padding_size` under the aligned-malloc configuration:
the amount that rounds `unpadded` up to the next multiple of the page size
(0 when it already is one). -/
def padding_size (pageSize unpadded : Nat) : Nat :=
  if unpadded % pageSize = 0 then 0 else pageSize - unpadded % pageSize

/-- `lsmp::_detail::create_canary`: fill the leading canary `[0, canary)`
and the trailing canary starting at `canary + user_memory_size` with the
canary byte.  (Its `mprotect` calls change access rights, not contents.) -/
def create_canary (m : Mem) (userMemorySize canarySize : Nat) (b : Byte) : Mem :=
  writeRange (writeRange m 0 canarySize b) (canarySize + userMemorySize) canarySize b

/-- Every byte of `[off, off + len)` equals `b`. -/
def range_all (m : Mem) (off len : Nat) (b : Byte) : Bool :=
  (List.range len).all (fun i => m (off + i) == b)

/-- `lsmp::_detail::check_canary` aborts the process (modelled as `true`)
exactly when one of its two loops — over the leading canary `[0, canary)`
and the trailing canary `[user + canary, user + 2*canary)` — finds a byte
differing from `b`. -/
def check_canary_aborts (m : Mem) (userMemorySize canarySize : Nat) (b : Byte) : Bool :=
  !(range_all m 0 canarySize b) ||
    !(range_all m (userMemorySize + canarySize) canarySize b)

/-- The byte count `secure_malloc` hands to `aligned_malloc`, computed in
`size_t` arithmetic: `size + memory_canary_size * 2 + padding_size(size)`
modulo `2^64`. -/
def secure_malloc_request (pageSize size : Nat) : Nat :=
  (size + pageSize * 2 + padding_size pageSize size) % 2 ^ 64

/-- Contents of a fresh allocation: the whole region filled with the garbage
byte by `rewrite_memory`, then both canaries written by `create_canary` with
`user_memory_size = size + padding_size(size)`. -/
def secure_malloc_mem (pageSize size : Nat) : Mem :=
  create_canary (fun _ => memory_garbage_byte) (size + padding_size pageSize size)
    pageSize memory_canary_byte

/-- Model of `lsmp::_detail::secure_malloc`.  `osAlloc` says whether
`aligned_malloc` succeeds for a requested byte count; on failure the result
is `none` (a null pointer — the function is `noexcept`); on success the
user pointer sits one canary size past the allocation base and the region
holds `secure_malloc_mem`. -/
def secure_malloc (osAlloc : Nat → Bool) (pageSize size : Nat) :
    Option (Nat × Mem) :=
  if osAlloc (secure_malloc_request pageSize size) then
    some (pageSize, secure_malloc_mem pageSize size)
  else none

/-- Model of `lsmp::_detail::secure_free` acting on the allocation-based
memory `m`: `none` models the process aborting on a canary mismatch;
otherwise the entire allocation is rewritten with the garbage byte (and then
unlocked and unmapped). -/
def secure_free (m : Mem) (pageSize size : Nat) : Option Mem :=
  if check_canary_aborts m (size + padding_size pageSize size) pageSize
      memory_canary_byte then none
  else some (writeRange m 0 (secure_malloc_request pageSize size) memory_garbage_byte)

/-- Model of the public `lsmp::check_canary(ptr, size)` template (for a
byte-sized element type, so the pointer adjustment reaches the allocation
base): it calls the detail check with `user_memory_size = size +
padding_size(size)` — and `memory_garbage_byte` as the expected canary
byte. -/
def check_canary_pub (m : Mem) (pageSize size : Nat) : Bool :=
  check_canary_aborts m (size + padding_size pageSize size) pageSize
    memory_garbage_byte

/-- The byte count `lsmp::secure_allocator<T>::allocate(n)` passes to
`secure_malloc`: `n * sizeof(T)` in `size_t` arithmetic, with no overflow
check. -/
def secure_allocator_allocate_request (n sizeofT : Nat) : Nat :=
  n * sizeofT % 2 ^ 64

/-- Little-endian encode/decode of the length union round-trips modulo the
64-bit word size. -/
lemma le64ToNat_le64 (n : Nat) : le64ToNat (le64 n) = n % 2 ^ 64 := by
  simp [le64, le64ToNat, byteOf]; omega

/-- The payload loop consumes exactly its count when the stream delivers one
byte per completion. -/
lemma read_payload_singletons (p : List Byte) (rest : List (List Byte)) :
    read_payload p.length (p.map (fun b => [b]) ++ rest) = .ok (p, rest) := by
  induction p with
  | nil => rfl
  | cons b bs ih => simp [read_payload, read_some, ih]

lemma read_some_marker (prior : List Byte) (rest : List (List Byte)) :
    read_some 4 prior (markerBytes :: rest) =
      .ok (markerBytes ++ prior.drop 4, rest) := by
  simp [read_some, markerBytes]

lemma marker_ok_append (t : List Byte) : marker_ok (markerBytes ++ t) = true := by
  simp [markerBytes, marker_ok]

lemma read_some_le64 (n : Nat) (prior : List Byte) (rest : List (List Byte)) :
    read_some 8 prior (le64 n :: rest) = .ok (le64 n ++ prior.drop 8, rest) := by
  simp [read_some, le64]

/-- Blocking read round-trip under full-chunk delivery, for any prior
contents of the two stack buffers. -/
lemma read_packet_exact (p j4 j8 : List Byte) (h : p.length < 2 ^ 64) :
    read_packet [] j4 j8 (exactDelivery p) = .ok p := by
  have htake : (le64 p.length ++ j8.drop 8).take 8 = le64 p.length := by
    simp [le64]
  have hsz : le64ToNat ((le64 p.length ++ j8.drop 8).take 8) = p.length := by
    rw [htake, le64ToNat_le64, Nat.mod_eq_of_lt h]
  have hpl := read_payload_singletons p []
  simp only [List.append_nil] at hpl
  simp [read_packet, exactDelivery, read_some_marker, marker_ok_append,
        read_some_le64, hsz, hpl]

/-- The exact-delivery schedule carries precisely the encoded frame. -/
lemma flatten_exactDelivery (p : List Byte) :
    (exactDelivery p).flatten = encode_packet p := by
  simp [exactDelivery, encode_packet, markerBytes]
  induction p with
  | nil => rfl
  | cons b bs ih => simp [ih]

lemma range_all_iff (m : Mem) (off len : Nat) (b : Byte) :
    range_all m off len b = true ↔ ∀ i, i < len → m (off + i) = b := by
  simp [range_all, List.all_eq_true, List.mem_range]

/-- The abort condition of the canary check, as the existence of a
mismatching byte in either canary region. -/
lemma check_canary_aborts_iff (m : Mem) (u c : Nat) (b : Byte) :
    check_canary_aborts m u c b = true ↔
      (∃ i, i < c ∧ m i ≠ b) ∨ (∃ i, i < c ∧ m (u + c + i) ≠ b) := by
  simp only [check_canary_aborts, Bool.or_eq_true, Bool.not_eq_true',
    Bool.eq_false_iff, Ne, range_all_iff]
  push_neg
  simp [Nat.zero_add]

lemma secure_malloc_mem_leading (pageSize size : Nat) (i : Nat) (hi : i < pageSize) :
    secure_malloc_mem pageSize size i = memory_canary_byte := by
  unfold secure_malloc_mem create_canary writeRange
  split_ifs <;> first | rfl | omega

lemma secure_malloc_mem_trailing (pageSize size : Nat) (i : Nat) (hi : i < pageSize) :
    secure_malloc_mem pageSize size
      (size + padding_size pageSize size + pageSize + i) = memory_canary_byte := by
  unfold secure_malloc_mem create_canary writeRange
  split_ifs <;> first | rfl | omega

lemma secure_malloc_mem_user (pageSize size : Nat) (i : Nat)
    (hi : i < size + padding_size pageSize size) :
    secure_malloc_mem pageSize size (pageSize + i) = memory_garbage_byte := by
  unfold secure_malloc_mem create_canary writeRange
  split_ifs <;> first | rfl | omega

/-- The padding really rounds up to the next page multiple. -/
lemma padding_size_spec (pageSize size : Nat) (hp : 0 < pageSize) :
    (size + padding_size pageSize size) % pageSize = 0 ∧
    padding_size pageSize size < pageSize ∧
    (padding_size pageSize size = 0 ↔ size % pageSize = 0) := by
  have hlt : size % pageSize < pageSize := Nat.mod_lt _ hp
  unfold padding_size
  split_ifs with h
  · exact ⟨by rw [Nat.add_zero]; exact h, hp, by simp [h]⟩
  · refine ⟨?_, by omega, by omega⟩
    have hdm := Nat.div_add_mod size pageSize
    have key : size + (pageSize - size % pageSize) =
        pageSize * (size / pageSize + 1) := by
      rw [Nat.mul_add, Nat.mul_one]; omega
    rw [key, Nat.mul_mod_right]

/-- Any 4-byte header differing from the magic literal in some position
fails the marker validation, whatever bytes follow it in the buffer. -/
lemma marker_ok_eq_false (a b c d : Byte) (t : List Byte)
    (h : [a, b, c, d] ≠ markerBytes) :
    marker_ok (a :: b :: c :: d :: t) = false := by
  rw [Bool.eq_false_iff]
  intro hok
  simp only [marker_ok, Bool.and_eq_true, beq_iff_eq] at hok
  obtain ⟨⟨⟨h1, h2⟩, h3⟩, h4⟩ := hok
  exact h (by simp [markerBytes, h1, h2, h3, h4])

lemma secure_free_eq_none_iff (m : Mem) (pageSize size : Nat) :
    secure_free m pageSize size = none ↔
      check_canary_aborts m (size + padding_size pageSize size) pageSize
        memory_canary_byte = true := by
  unfold secure_free
  split_ifs with h <;> simp [h]

/-- C1: decoding the frame produced by encoding a payload yields the payload
back, and the blocking path returns a sent payload byte-identically; but the
asynchronous path does not: `async_read_packet` on an idle connection
(empty `async_buffer`, expected size 0) issues no socket read and performs
no callback invocation, so the async round-trip never completes. -/
theorem c1_round_trip :
    (∀ (p : List Byte), (exactDelivery p).flatten = encode_packet p) ∧
    (∀ (p j4 j8 : List Byte), p.length < 2 ^ 64 →
      read_packet [] j4 j8 (exactDelivery p) = .ok p) ∧
    async_read_packet idleConn = (idleConn, [], []) :=
  ⟨flatten_exactDelivery, read_packet_exact, rfl⟩

/-- Closed instance of the blocking round-trip of C1 at payload `[1, 2, 3]`. -/
theorem c1_round_trip_witness :
    read_packet [] [] [] (exactDelivery [1, 2, 3]) = .ok [1, 2, 3] :=
  c1_round_trip.2.1 [1, 2, 3] [] [] (by decide)

/-- C2: on an idle connection a call to `async_read_packet` invokes the
supplied callback zero times, not exactly once: neither branch of
`read_async_inner` matches an empty buffer, so no read is issued and no
callback ever fires. -/
theorem c2_async_read_callback_count :
    async_read_packet idleConn = (idleConn, [], []) ∧
    (async_read_packet idleConn).2.2.length = 0 :=
  ⟨rfl, rfl⟩

/-- C3: a second `async_read_packet` issued after a first one on a fresh
connection does not receive a synchronous reentrancy-error callback — it
receives no callback at all, because the first call left `async_buffer`
empty, which the guard misreads as idle; the guard keys purely on buffer
non-emptiness. -/
theorem c3_reentrancy_guard :
    (async_read_packet idleConn).2.2 = [] ∧
    async_read_packet (async_read_packet idleConn).1 = (idleConn, [], []) ∧
    (∀ (b : Byte) (bs : List Byte) (n : Nat),
      async_read_packet ⟨b :: bs, n⟩ =
        (⟨b :: bs, n⟩, [], [⟨[], some AsyncError.domain⟩])) :=
  ⟨rfl, rfl, fun _ _ _ => rfl⟩

/-- C4 counterexample: a stream holding exactly the valid frame of the empty
payload, delivered with the first completion carrying only the byte `'L'`.
The claim mandates reading exactly 4 marker bytes and returning the empty
payload (or, for a short read, a transport error); the code's unchecked
`read_some` leaves the stale stack bytes in `marker[1..3]` and reports a
framing error. -/
theorem c4_read_packet_counterexample :
    [byteL] ++ ([byteS, byteM, byteP] ++ le64 0) = encode_packet [] ∧
    read_packet [] (List.replicate 4 0) (List.replicate 8 0)
      [[byteL], [byteS, byteM, byteP] ++ le64 0] = .error .framing :=
  ⟨rfl, rfl⟩

/-- C4 amended: the reentrancy guard (a check of `async_buffer` emptiness,
before any socket access) rejects with a reentrancy error; when every
`read_some` completion delivers the full requested byte count, the frame is
read back exactly and the payload returned; a marker mismatch surfaces a
framing error and an exhausted stream a transport error; but a short marker
read is not detected — the stale buffer bytes are validated instead,
surfacing a framing error on a well-formed frame rather than a transport
error. -/
theorem c4_read_packet_amended :
    (∀ (b : Byte) (bs j4 j8 : List Byte) (c : List (List Byte)),
      read_packet (b :: bs) j4 j8 c = .error .reentrancy) ∧
    (∀ (p j4 j8 : List Byte), p.length < 2 ^ 64 →
      read_packet [] j4 j8 (exactDelivery p) = .ok p) ∧
    (∀ (j4 j8 : List Byte) (c : List (List Byte)),
      read_packet [] j4 j8 ([88, 88, 88, 88] :: c) = .error .framing) ∧
    (∀ (j4 j8 : List Byte), read_packet [] j4 j8 [] = .error .transport) ∧
    read_packet [] (List.replicate 4 0) (List.replicate 8 0)
      [[byteL], [byteS, byteM, byteP] ++ le64 0] = .error .framing :=
  ⟨fun _ _ _ _ _ => rfl, read_packet_exact, fun _ _ _ => rfl, fun _ _ => rfl, rfl⟩

/-- Closed instance of the full-delivery conjunct of the amended C4. -/
theorem c4_read_packet_amended_witness :
    read_packet [] [] [] (exactDelivery [7]) = .ok [7] :=
  c4_read_packet_amended.2.1 [7] [] [] (by decide)

/-- C5: `secure_free` aborts exactly when a byte of the leading or trailing
canary differs from the canary sentinel, and on an intact allocation it
rewrites the entire allocation — user data, padding and both canaries —
with the garbage sentinel. -/
theorem c5_secure_free :
    ∀ (m : Mem) (pageSize size : Nat),
      (secure_free m pageSize size = none ↔
        (∃ i, i < pageSize ∧ m i ≠ memory_canary_byte) ∨
        (∃ i, i < pageSize ∧
          m (size + padding_size pageSize size + pageSize + i) ≠
            memory_canary_byte)) ∧
      (∀ m', secure_free m pageSize size = some m' →
        ∀ i, i < secure_malloc_request pageSize size →
          m' i = memory_garbage_byte) := by
  intro m p size
  constructor
  · rw [secure_free_eq_none_iff, check_canary_aborts_iff]
  · intro m' hm' i hi
    unfold secure_free at hm'
    split_ifs at hm' with h
    have hw : writeRange m 0 (secure_malloc_request p size) memory_garbage_byte
        = m' := Option.some.inj hm'
    rw [← hw]
    unfold writeRange
    split_ifs with h2 <;> first | rfl | omega

/-- Closed instance of C5: freeing an all-zero region aborts (its canaries do
not hold the sentinel), and after freeing an intact fresh allocation the
byte at offset 5 holds the garbage sentinel. -/
theorem c5_secure_free_witness :
    secure_free (fun _ => (0 : Byte)) 4 6 = none ∧
    writeRange (secure_malloc_mem 4 6) 0 (secure_malloc_request 4 6)
      memory_garbage_byte 5 = memory_garbage_byte :=
  ⟨(c5_secure_free (fun _ => 0) 4 6).1.mpr (Or.inl ⟨0, by decide, by decide⟩),
   (c5_secure_free (secure_malloc_mem 4 6) 4 6).2 _ rfl 5 (by decide)⟩

/-- C6: the public `lsmp::check_canary` does not perform the same comparison
as `secure_free`: it compares both canary regions against the garbage byte
instead of the canary sentinel, so on every live allocation whose canaries
are intact (for any positive canary size) it aborts the process, while the
free-path check accepts the same memory. -/
theorem c6_public_check_canary :
    ∀ (pageSize size : Nat), 0 < pageSize →
      check_canary_pub (secure_malloc_mem pageSize size) pageSize size = true ∧
      check_canary_aborts (secure_malloc_mem pageSize size)
        (size + padding_size pageSize size) pageSize memory_canary_byte
        = false := by
  intro p size hp
  constructor
  · rw [check_canary_pub, check_canary_aborts_iff]
    exact Or.inl ⟨0, hp, by rw [secure_malloc_mem_leading p size 0 hp]; decide⟩
  · rw [Bool.eq_false_iff, Ne, check_canary_aborts_iff]
    rintro (⟨i, hi, hne⟩ | ⟨i, hi, hne⟩)
    · exact hne (secure_malloc_mem_leading p size i hi)
    · exact hne (secure_malloc_mem_trailing p size i hi)

/-- Closed instance of C6 at page size 4 and user size 6. -/
theorem c6_public_check_canary_witness :
    check_canary_pub (secure_malloc_mem 4 6) 4 6 = true ∧
    check_canary_aborts (secure_malloc_mem 4 6) (6 + padding_size 4 6) 4
      memory_canary_byte = false :=
  c6_public_check_canary 4 6 (by decide)

/-- C7: `secure_malloc` requests exactly `size + 2 * canary + padding(size)`
bytes (whenever that sum fits in 64 bits), where the padding rounds `size`
up to the next page multiple and is zero on an exact multiple; the user
pointer is the base plus one canary size; the `size` user bytes are all the
garbage sentinel; and an allocation failure yields `none` without throwing. -/
theorem c7_secure_malloc :
    ∀ (pageSize size : Nat) (osAlloc : Nat → Bool), 0 < pageSize →
      (size + pageSize * 2 + padding_size pageSize size < 2 ^ 64 →
        secure_malloc_request pageSize size =
          size + pageSize * 2 + padding_size pageSize size) ∧
      ((size + padding_size pageSize size) % pageSize = 0 ∧
        padding_size pageSize size < pageSize ∧
        (padding_size pageSize size = 0 ↔ size % pageSize = 0)) ∧
      (osAlloc (secure_malloc_request pageSize size) = true →
        secure_malloc osAlloc pageSize size =
          some (pageSize, secure_malloc_mem pageSize size)) ∧
      (∀ i, i < size →
        secure_malloc_mem pageSize size (pageSize + i) = memory_garbage_byte) ∧
      secure_malloc (fun _ => false) pageSize size = none := by
  intro p size osAlloc hp
  refine ⟨fun h => Nat.mod_eq_of_lt h, padding_size_spec p size hp, ?_, ?_, ?_⟩
  · intro h; unfold secure_malloc; rw [h]; rfl
  · intro i hi; exact secure_malloc_mem_user p size i (by omega)
  · rfl

/-- Closed instance of C7 at page size 4 and user size 6: 16 bytes are
requested (6 user + 8 canary + 2 padding), a user byte reads as garbage,
and a failed OS allocation yields `none`. -/
theorem c7_secure_malloc_witness :
    secure_malloc_request 4 6 = 6 + 4 * 2 + padding_size 4 6 ∧
    secure_malloc_mem 4 6 (4 + 5) = memory_garbage_byte ∧
    secure_malloc (fun _ => false) 4 6 = none :=
  ⟨(c7_secure_malloc 4 6 (fun _ => true) (by decide)).1 (by decide),
   (c7_secure_malloc 4 6 (fun _ => true) (by decide)).2.2.2.1 5 (by decide),
   (c7_secure_malloc 4 6 (fun _ => false) (by decide)).2.2.2.2⟩

/-- C8: whenever the 4 header bytes differ in any position from the magic
literal, both paths yield a framing (`MissingMarker`) error — the blocking
read throws `corrupted_packet_error` without touching the remaining stream,
and the async validation step performs exactly one callback carrying no
payload and the `corrupted_packet_error`, issuing no socket operation. -/
theorem c8_missing_marker :
    (∀ (a b c d : Byte) (j4 j8 : List Byte) (ch : List (List Byte)),
      [a, b, c, d] ≠ markerBytes →
      read_packet [] j4 j8 ([a, b, c, d] :: ch) = .error .framing) ∧
    (∀ (a b c d : Byte), [a, b, c, d] ≠ markerBytes →
      read_async_inner ⟨[a, b, c, d], 0⟩ =
        (⟨[a, b, c, d], 0⟩, [], [⟨[], some AsyncError.corrupted⟩])) := by
  constructor
  · intro a b c d j4 j8 ch h
    have hm := marker_ok_eq_false a b c d (j4.drop 4) h
    simp [read_packet, read_some, hm]
  · intro a b c d h
    have hm := marker_ok_eq_false a b c d [] h
    simp [read_async_inner, hm]

/-- Closed instance of C8 at the header `X X X X`. -/
theorem c8_missing_marker_witness :
    read_packet [] [] [] [[88, 88, 88, 88]] = .error .framing ∧
    read_async_inner ⟨[88, 88, 88, 88], 0⟩ =
      (⟨[88, 88, 88, 88], 0⟩, [], [⟨[], some AsyncError.corrupted⟩]) :=
  ⟨c8_missing_marker.1 88 88 88 88 [] [] [] (by decide),
   c8_missing_marker.2 88 88 88 88 (by decide)⟩

/-- C9: the internally owned send buffer equals the encoded frame (so the
caller's payload is no longer needed after the call), exactly one
non-blocking write of the whole buffer is issued, and the completion handler
invokes the callback exactly once — but with an engaged error value even on
a successful write: it wraps the zero error code in `asio::system_error`
instead of passing no error. -/
theorem c9_async_send :
    (∀ (p : List Byte), async_send_buffer p = encode_packet p) ∧
    (∀ (p : List Byte),
      async_send_writes p = [WriteOp.writeSome (encode_packet p)]) ∧
    (∀ (ec : ErrCode), (async_send_on_complete ec).length = 1) ∧
    async_send_on_complete ErrCode.success =
      [some (AsyncError.system ErrCode.success)] ∧
    async_send_on_complete ErrCode.success ≠ [none] :=
  ⟨fun _ => rfl, fun _ => rfl, fun _ => rfl, rfl, by decide⟩

/-- C10: `secure_allocator<T>::allocate(n)` multiplies in wrapping 64-bit
arithmetic: at `sizeof(T) = 2` and `n = 2^63` the product wraps to 0, and
`secure_malloc` then requests only two canary pages — far fewer bytes than
the `2^64` the elements require. -/
theorem c10_allocate_overflow :
    secure_allocator_allocate_request (2 ^ 63) 2 = 0 ∧
    secure_allocator_allocate_request (2 ^ 63) 2 < 2 ^ 63 * 2 ∧
    secure_malloc_request 4096 (secure_allocator_allocate_request (2 ^ 63) 2) =
      4096 * 2 ∧
    4096 * 2 < 2 ^ 63 * 2 := by
  decide

end lsmp
